import Mathlib

/-!
Shallow embedding of the PhishPolice evidence-aggregation and risk-scoring
engine (backend/app.py and backend/utils/) together with proofs about it.

Modelling conventions:
* Python floats are modelled as exact rationals; Python `round` is modelled
  as round-half-to-even (`pyRound`), which is what CPython implements.
* Python strings are modelled by `String`; the string operations used by the
  code (`startswith`, `endswith`, `split`, `lower`, single- and two-character
  `replace`) are implemented structurally over `String.data` so that they
  evaluate inside the kernel.
* Dictionaries handed between the collectors and the engine become structures
  whose optional keys are `Option` fields; Python truthiness of an optional
  string is `optTruthy`.
* Human-readable message strings that the code appends to its evidence and
  detail lists are modelled one constructor per `append` call site
  (`TyposquatNote`, `VisualNote`, `CtSummary`, `Evidence`), carrying the data
  that the Python f-string interpolates.  No claim depends on the exact
  rendered text, only on which entries appear.
-/

/-- Round-half-to-even on rationals: the behaviour of Python `round(x)`. -/
def pyRound (q : ℚ) : ℤ :=
  if q - ⌊q⌋ < 1/2 then ⌊q⌋
  else if 1/2 < q - ⌊q⌋ then ⌊q⌋ + 1
  else if ⌊q⌋ % 2 = 0 then ⌊q⌋ else ⌊q⌋ + 1

/-- Python `round(x, 2)`: round half-to-even at two decimal places. -/
def pyRound2 (q : ℚ) : ℚ := (pyRound (q * 100) : ℚ) / 100

/-- Round-half-to-even of the fraction `a / b` (for a positive denominator
`b`), computed on integers so that it evaluates inside the kernel.
`pyRoundDiv_eq_pyRound` below proves it equal to `pyRound ((a : ℚ) / b)`. -/
def pyRoundDiv (a b : ℤ) : ℤ :=
  if 2 * (a - b * Int.fdiv a b) < b then Int.fdiv a b
  else if b < 2 * (a - b * Int.fdiv a b) then Int.fdiv a b + 1
  else if Int.fdiv a b % 2 = 0 then Int.fdiv a b else Int.fdiv a b + 1

/-- Python truthiness of an optional string (`None` and `""` are falsy). -/
def optTruthy : Option String → Bool
  | none => false
  | some s => !(s == "")

/-! ## utils/typosquat_scanner.py -/

/-- The `POPULAR_BRANDS` table, in declaration (= Python dict iteration) order. -/
def POPULAR_BRANDS : List (String × List String) :=
  [("google", ["google.com", "gmail.com", "youtube.com"]),
   ("microsoft", ["microsoft.com", "outlook.com", "live.com", "office.com"]),
   ("apple", ["apple.com", "icloud.com"]),
   ("amazon", ["amazon.com", "aws.amazon.com"]),
   ("facebook", ["facebook.com", "fb.com", "meta.com"]),
   ("instagram", ["instagram.com"]),
   ("twitter", ["twitter.com", "x.com"]),
   ("linkedin", ["linkedin.com"]),
   ("netflix", ["netflix.com"]),
   ("spotify", ["spotify.com"]),
   ("discord", ["discord.com", "discord.gg"]),
   ("github", ["github.com"]),
   ("dropbox", ["dropbox.com"]),
   ("paypal", ["paypal.com"]),
   ("chase", ["chase.com"]),
   ("bankofamerica", ["bankofamerica.com", "bofa.com"]),
   ("wellsfargo", ["wellsfargo.com"]),
   ("citibank", ["citi.com", "citibank.com"]),
   ("venmo", ["venmo.com"]),
   ("stripe", ["stripe.com"]),
   ("coinbase", ["coinbase.com"]),
   ("binance", ["binance.com"]),
   ("fedex", ["fedex.com"]),
   ("ups", ["ups.com"]),
   ("usps", ["usps.com"]),
   ("dhl", ["dhl.com"]),
   ("walmart", ["walmart.com"]),
   ("ebay", ["ebay.com"]),
   ("adobe", ["adobe.com"]),
   ("zoom", ["zoom.us"])]

/-- `TYPO_PATTERNS["letter_swap"]`: pairs `(original, substitution)`; every
entry is a single character, so `str.replace` on them is a character map. -/
def TYPO_letter_swap : List (Char × Char) :=
  [('a', '4'), ('a', '@'), ('a', 'e'),
   ('e', '3'), ('e', 'i'),
   ('i', '1'), ('i', 'l'), ('i', '!'),
   ('l', '1'), ('l', 'i'), ('l', '|'),
   ('o', '0'), ('o', 'u'),
   ('s', '5'), ('s', '$'),
   ('g', '9'), ('g', 'q'),
   ('b', '8'),
   ('t', '7'),
   ('z', '2')]

/-- `TYPO_PATTERNS["homoglyphs"]`: `(fake two-character sequence, real char)`. -/
def TYPO_homoglyphs : List ((Char × Char) × Char) :=
  [(('r', 'n'), 'm'),
   (('v', 'v'), 'w'),
   (('c', 'l'), 'd'),
   (('n', 'n'), 'm')]

/-- One row of the Levenshtein dynamic program of `calculate_levenshtein`:
`last` is the leftmost entry `i + 1` of the current row; at each step `prev`
starts at `previous_row[j]`. -/
def levBuildRow (c1 : Char) : List Char → List Nat → Nat → List Nat
  | [], _, last => [last]
  | c2 :: s2t, prev, last =>
      let pj := prev.headD 0
      let pj1 := prev.tail.headD 0
      let cell := min (pj1 + 1) (min (last + 1) (pj + (if c1 = c2 then 0 else 1)))
      last :: levBuildRow c1 s2t prev.tail cell

/-- The outer `for i, c1 in enumerate(s1)` loop of `calculate_levenshtein`. -/
def levLoop (s2 : List Char) : List Char → List Nat → Nat → List Nat
  | [], prev, _ => prev
  | c1 :: s1t, prev, i => levLoop s2 s1t (levBuildRow c1 s2 prev (i + 1)) (i + 1)

/-- Body of `calculate_levenshtein` after the argument swap (`s1` is the longer
string): `previous_row = range(len(s2)+1)`, run the loop, take the last cell. -/
def levCore (s1 s2 : List Char) : Nat :=
  if s2.length = 0 then s1.length
  else (levLoop s2 s1 (List.range (s2.length + 1)) 0).getLastD 0

/-- `calculate_levenshtein(s1, s2)` from utils/typosquat_scanner.py. -/
def calculate_levenshtein (s1 s2 : List Char) : Nat :=
  if s1.length < s2.length then levCore s2 s1 else levCore s1 s2

/-- Python `s.split(".")` on the character list of `s`. -/
def splitOnDot : List Char → List (List Char)
  | [] => [[]]
  | c :: rest =>
      match splitOnDot rest with
      | [] => [[]]
      | g :: gs => if c = '.' then [] :: g :: gs else (c :: g) :: gs

/-- `normalize_domain`: strip a leading `www.`, take the second-to-last
dot-separated label (if there are at least two), lower-cased. -/
def normalize_domain (domain : String) : String :=
  let d := if "www.".data.isPrefixOf domain.data then domain.data.drop 4 else domain.data
  let parts := splitOnDot d
  if 2 ≤ parts.length then ⟨(parts.getD (parts.length - 2) []).map Char.toLower⟩
  else ⟨d.map Char.toLower⟩

/-- Python `s.replace(sub, orig)` where `sub` and `orig` are single characters. -/
def replaceChar (sub orig : Char) (s : List Char) : List Char :=
  s.map fun c => if c = sub then orig else c

/-- Python `s.replace(ab, r)` for a two-character pattern `ab` and a
single-character replacement `r` (leftmost, non-overlapping). -/
def replacePair (a b r : Char) : List Char → List Char
  | [] => []
  | [c] => [c]
  | c :: d :: rest =>
      if c = a ∧ d = b then r :: replacePair a b r rest
      else c :: replacePair a b r (d :: rest)

/-- `check_letter_substitution(domain, brand)`: desubstitute the lower-cased
domain through `TYPO_letter_swap` (in table order, each replacement applied to
the result of the previous one) and test edit distance to the brand. -/
def check_letter_substitution (domain brand : String) : Bool :=
  let normalized :=
    TYPO_letter_swap.foldl (fun acc p => replaceChar p.2 p.1 acc) (domain.data.map Char.toLower)
  decide (calculate_levenshtein normalized brand.data ≤ 1) && !(normalized == domain.data)

/-- `check_homoglyphs(domain, brand)`. -/
def check_homoglyphs (domain brand : String) : Bool :=
  let normalized :=
    TYPO_homoglyphs.foldl (fun acc p => replacePair p.1.1 p.1.2 p.2 acc) (domain.data.map Char.toLower)
  decide (calculate_levenshtein normalized brand.data ≤ 1) && !(normalized == domain.data)

/-- Python `any(domain[i] == brand[i+1] and domain[i+1] == brand[i] ...)`:
some adjacent transposition explains the two differing positions. -/
def hasAdjacentSwap (d b : List Char) : Bool :=
  ((d.zip d.tail).zip (b.zip b.tail)).any fun p => p.1.1 == p.2.2 && p.1.2 == p.2.1

/-- `detect_technique(domain, brand)` from utils/typosquat_scanner.py. -/
def detect_technique (domain brand : String) : String :=
  if domain.data.length ≠ brand.data.length then
    if brand.data.length < domain.data.length then "character_insertion"
    else "character_omission"
  else
    let diffs := ((domain.data.zip brand.data).filter fun p => p.1 ≠ p.2).length
    if diffs = 1 then "character_swap"
    else if diffs = 2 then
      if hasAdjacentSwap domain.data brand.data then "adjacent_swap"
      else "character_substitution"
    else "multiple_changes"

/-- One entry of the `details` list of the scanner, one constructor per
`result["details"].append(...)` site. -/
inductive TyposquatNote where
  | legitimate (brand : String)
  | similar (domain : String) (score : ℤ) (brand : String)
  | substitutionMimic (brand : String)
  | homoglyphMimic (brand : String)
  | suspectedImpersonation (brand : Option String)
  | techniqueUsed (technique : Option String)
deriving DecidableEq

/-- The result dictionary of the scanner. -/
structure TyposquatResult where
  is_typosquat : Bool
  suspected_brand : Option String
  similarity_score : ℤ
  technique : Option String
  details : List TyposquatNote
deriving DecidableEq

/-- The freshly initialised `result` of `detect_typosquatting` (also the value
returned on empty input and when no brand matches). -/
def typosquatZeroResult : TyposquatResult :=
  { is_typosquat := false, suspected_brand := none, similarity_score := 0,
    technique := none, details := [] }

/-- One iteration of the brand loop in `detect_typosquatting`: `some r` means
the body returned `r` for this brand, `none` means the loop continues.

The source computes `similarity = 1 - distance / max(len(domain_name),
len(brand))` and tests `similarity >= 0.75`, reporting
`round(similarity * 100)`.  With `m` the maximum length, `similarity * 100`
is the fraction `100 * (m - distance) / m`; the test is rendered as the
equivalent integer inequality `75 * m ≤ 100 * (m - distance)` and the score
as `pyRoundDiv (100 * (m - distance)) m` (see `simGuard_iff` and
`pyRoundDiv_eq_pyRound` for the equivalence with the rational form). -/
def checkBrand (hostname domain_name : String) (brand : String)
    (legit_domains : List String) : Option TyposquatResult :=
  if legit_domains.any (fun d => d.data.isSuffixOf hostname.data || hostname == d) then
    some { typosquatZeroResult with details := [.legitimate brand] }
  else
    let distance := calculate_levenshtein domain_name.data brand.data
    let m : ℤ := (max domain_name.data.length brand.data.length : ℕ)
    if 75 * m ≤ 100 * (m - distance) ∧ domain_name ≠ brand then
      some { is_typosquat := true, suspected_brand := some brand,
             similarity_score := pyRoundDiv (100 * (m - distance)) m,
             technique := some (detect_technique domain_name brand),
             details := [.similar domain_name (pyRoundDiv (100 * (m - distance)) m) brand] }
    else if check_letter_substitution domain_name brand then
      some { is_typosquat := true, suspected_brand := some brand, similarity_score := 95,
             technique := some "letter_substitution",
             details := [.substitutionMimic brand] }
    else if check_homoglyphs domain_name brand then
      some { is_typosquat := true, suspected_brand := some brand, similarity_score := 90,
             technique := some "homoglyph",
             details := [.homoglyphMimic brand] }
    else none

/-- The `for brand, legit_domains in POPULAR_BRANDS.items()` loop. -/
def detectLoop (hostname domain_name : String) :
    List (String × List String) → TyposquatResult
  | [] => typosquatZeroResult
  | (brand, legit) :: rest =>
      match checkBrand hostname domain_name brand legit with
      | some r => r
      | none => detectLoop hostname domain_name rest

/-- `detect_typosquatting(hostname)` from utils/typosquat_scanner.py. -/
def detect_typosquatting (hostname : String) : TyposquatResult :=
  if hostname = "" then typosquatZeroResult
  else detectLoop hostname (normalize_domain hostname) POPULAR_BRANDS

/-- `get_typosquat_risk_score(hostname)`. -/
def get_typosquat_risk_score (hostname : String) : ℚ × List TyposquatNote :=
  let result := detect_typosquatting hostname
  if result.is_typosquat then
    (0.35, result.details ++
      [.suspectedImpersonation result.suspected_brand, .techniqueUsed result.technique])
  else (0.0, result.details)

/-- A Python runtime value, for the dynamically-typed `hostname` argument. -/
inductive PyVal where
  | pstr (s : String)
  | pint (n : ℤ)
  | pbool (b : Bool)
  | pnone
  | plist (xs : List PyVal)

/-- Python truthiness of a `PyVal`. -/
def pyTruthy : PyVal → Bool
  | .pstr s => !(s == "")
  | .pint n => decide (n ≠ 0)
  | .pbool b => b
  | .pnone => false
  | .plist xs => !xs.isEmpty

/-- `detect_typosquatting` called on an arbitrary runtime value: `if not
hostname` returns the zero result; otherwise `normalize_domain` calls
`hostname.startswith`, which raises `AttributeError` on a non-string. -/
def detect_typosquatting_dyn (hostname : PyVal) : Except String TyposquatResult :=
  if !pyTruthy hostname then .ok typosquatZeroResult
  else
    match hostname with
    | .pstr s => .ok (detectLoop s (normalize_domain s) POPULAR_BRANDS)
    | _ => .error "AttributeError"

/-! ## The collector payloads consumed by app.py -/

/-- The `ssl_info` dictionary as read by `calculate_risk_score` and
`build_evidence_list`: the boolean keys are truth-tested with `.get(...)`, so
a missing key behaves like `false`; `security_score` defaults to 50. -/
structure SslInfo where
  has_ssl : Bool := false
  is_valid : Bool := false
  is_self_signed : Bool := false
  is_expired : Bool := false
  security_score : Option ℤ := none
deriving DecidableEq

/-- The `domain_info` dictionary from utils/domain_checks.py. -/
structure DomainInfo where
  is_ip_address : Bool := false
  has_suspicious_subdomain : Bool := false
  has_many_subdomains : Bool := false
  has_suspicious_tld : Bool := false
  subdomain : String := ""
  suffix : String := ""
deriving DecidableEq

/-- One client-supplied form record (both key spellings are truth-tested). -/
structure FormInfo where
  hasPassword : Bool := false
  has_password : Bool := false
  submitsToDifferentDomain : Bool := false
deriving DecidableEq

/-- The `dom_analysis` dictionary built in the request handler. -/
structure DomAnalysis where
  hidden_iframes : ℕ := 0
  external_links_ratio : ℚ := 0
deriving DecidableEq

/-- The `visual_info` dictionary from utils/visual_analysis.py. -/
structure VisualResult where
  analyzed : Bool := false
  detected_brand : Option String := none
  brand_match_confidence : ℤ := 0
  is_login_page : Bool := false
  has_urgency_elements : Bool := false
  findings : List String := []
deriving DecidableEq

/-- The `ct_result` dictionary from utils/ct_monitor.py. -/
structure CtResult where
  checked : Bool := false
  recent_certs_count : ℕ := 0
  certs_last_30_days : ℕ := 0
  issuers : List String := []
  warning : Option String := none
deriving DecidableEq

/-- The `domain_age_result` dictionary from utils/domain_age.py (only the
fields `build_evidence_list` reads). -/
structure DomainAgeResult where
  checked : Bool := false
  age_days : Option ℤ := none
deriving DecidableEq

/-! ## utils/visual_analysis.py: get_visual_risk_score -/

/-- One entry of the visual evidence list, one constructor per append site. -/
inductive VisualNote where
  | notPerformed
  | brandMatch (brand : Option String) (confidence : ℤ)
  | loginPage
  | urgencyElements
  | finding (s : String)
deriving DecidableEq

/-- `get_visual_risk_score(visual_result)`: per-signal increments, local sum
capped at 0.25. -/
def get_visual_risk_score (visual_result : VisualResult) : ℚ × List VisualNote :=
  if !visual_result.analyzed then (0.0, [.notPerformed])
  else
    let p1 : ℚ × List VisualNote :=
      if optTruthy visual_result.detected_brand &&
          decide ((70 : ℤ) < visual_result.brand_match_confidence) then
        (0.15, [.brandMatch visual_result.detected_brand visual_result.brand_match_confidence])
      else (0, [])
    let p2 : ℚ × List VisualNote :=
      if visual_result.is_login_page then (0.05, [.loginPage]) else (0, [])
    let p3 : ℚ × List VisualNote :=
      if visual_result.has_urgency_elements then (0.08, [.urgencyElements]) else (0, [])
    let findingNotes := (visual_result.findings.take 3).map VisualNote.finding
    (min (p1.1 + p2.1 + p3.1) 0.25, p1.2 ++ p2.2 ++ p3.2 ++ findingNotes)

/-! ## utils/ct_monitor.py: format_ct_summary -/

/-- The possible return values of `format_ct_summary`, one constructor per
branch, carrying the interpolated data. -/
inductive CtSummary where
  | unavailable
  | noCertsFound
  | multipleIssuers (n : ℕ)
  | frequentReissuance (n : ℕ)
  | certsFound (n : ℕ)
deriving DecidableEq

/-- `format_ct_summary(result)` from utils/ct_monitor.py. -/
def format_ct_summary (result : CtResult) : CtSummary :=
  if !result.checked then .unavailable
  else if result.warning == some "no_certs_found" then .noCertsFound
  else if result.warning == some "many_issuers" then .multipleIssuers result.issuers.length
  else if result.warning == some "frequent_reissuance" then
    .frequentReissuance result.certs_last_30_days
  else .certsFound result.recent_certs_count

/-! ## app.py: calculate_risk_score, determine_verdict, build_evidence_list -/

/-- The SSL block of `calculate_risk_score` (the five `score +=` statements
under `=== SSL Factor ===`). -/
def sslFactor (ssl_info : SslInfo) : ℚ :=
  (let s := ssl_info.security_score.getD 50
   if s < 30 then 0.10 else if s < 50 then 0.05 else if s < 70 then 0.02 else 0)
  + (if ssl_info.is_self_signed then 0.05 else 0)
  + (if !ssl_info.is_valid && ssl_info.has_ssl then 0.06 else 0)
  + (if ssl_info.is_expired then 0.05 else 0)
  + (if !ssl_info.has_ssl then 0.06 else 0)

/-- The `=== Domain Factor ===` block of `calculate_risk_score`. -/
def domainFactor (domain_info : DomainInfo) : ℚ :=
  (if domain_info.is_ip_address then 0.05 else 0)
  + (if domain_info.has_suspicious_tld then 0.04 else 0)
  + (if domain_info.has_many_subdomains then 0.02 else 0)

/-- The `=== Form Factor ===` block of `calculate_risk_score`. -/
def formFactor (forms : List FormInfo) : ℚ :=
  let password_forms := (forms.filter fun f => f.hasPassword || f.has_password).length
  let external_forms := (forms.filter fun f => f.submitsToDifferentDomain).length
  (if 0 < password_forms then 0.06 else 0)
  + (if 1 < password_forms then 0.03 else 0)
  + (if 0 < external_forms then 0.08 else 0)

/-- Python substring containment `needle in hay` on character lists. -/
def containsSub (needle : List Char) : List Char → Bool
  | [] => needle.isEmpty
  | c :: rest => needle.isPrefixOf (c :: rest) || containsSub needle rest

/-- The `=== DOM/Behavior Factor ===` block of `calculate_risk_score`: the
urgency and hidden-iframe contributions are guarded by the truthiness of
`suspicious_patterns`; the external-link-ratio test is unconditional. -/
def domBehaviorFactor (suspicious_patterns : List String) (dom_analysis : DomAnalysis) : ℚ :=
  (if suspicious_patterns ≠ [] then
     let urgency_count :=
       (suspicious_patterns.filter fun p => containsSub "urgency".data (p.data.map Char.toLower)).length
     min 0.06 ((urgency_count : ℚ) * 0.02)
     + (if 0 < dom_analysis.hidden_iframes then 0.04 else 0)
   else 0)
  + (if (0.8 : ℚ) < dom_analysis.external_links_ratio then 0.03 else 0)

/-- `calculate_risk_score` from app.py: the sequential `score +=` blocks, in
source order, rounded to two decimals and clamped at 0.99.  The `visual_info`
parameter is accepted and unused, as in the source. -/
def calculate_risk_score (ssl_info : SslInfo) (domain_info : DomainInfo)
    (forms : List FormInfo) (suspicious_patterns : List String)
    (dom_analysis : DomAnalysis) (visual_info : Option VisualResult)
    (typosquat_risk ct_risk visual_risk domain_age_risk : ℚ) : ℚ :=
  min (pyRound2 (typosquat_risk + domain_age_risk + visual_risk
      + sslFactor ssl_info + ct_risk + domainFactor domain_info
      + formFactor forms + domBehaviorFactor suspicious_patterns dom_analysis)) 0.99

/-- `determine_verdict(score)` from app.py. -/
def determine_verdict (score : ℚ) : String :=
  if 0.55 ≤ score then "phish"
  else if 0.25 ≤ score then "suspicious"
  else "safe"

/-- The ordering safe ≤ suspicious ≤ phish on verdict strings. -/
def verdictTier (v : String) : ℕ :=
  if v = "phish" then 2 else if v = "suspicious" then 1 else 0

/-- One evidence entry, one constructor per `evidence.append(...)` site of
`build_evidence_list`, carrying the data the f-string interpolates. -/
inductive Evidence where
  | typosquatAlert (brand : Option String) (score : ℤ)
  | newDomain (age_days : ℤ)
  | youngDomain (age_days : ℤ)
  | establishedDomain (years : ℤ)
  | visualBrand (brand : Option String) (confidence : ℤ)
  | visualUrgency
  | visualLogin
  | visualFinding (s : String)
  | sslSummary (s : String)
  | ctWarning (s : CtSummary)
  | suspiciousSubdomain (s : String)
  | suspiciousTld (s : String)
  | ipAddress
  | passwordForms (n : ℕ)
  | externalForms (n : ℕ)
  | hiddenIframes
  | noBrandImpersonation
deriving DecidableEq

/-- Truthiness of `visual_info and visual_info.get("detected_brand")`. -/
def visualBrandTruthy : Option VisualResult → Bool
  | none => false
  | some v => optTruthy v.detected_brand

/-- `build_evidence_list` from app.py, in source append order. -/
def build_evidence_list (ssl_info : SslInfo) (ssl_summary : String)
    (domain_info : DomainInfo) (forms : List FormInfo)
    (suspicious_patterns : List String) (dom_analysis : DomAnalysis)
    (typosquat_result : TyposquatResult) (ct_result : CtResult)
    (visual_info : Option VisualResult) (domain_age_result : Option DomainAgeResult) :
    List Evidence :=
  (if typosquat_result.is_typosquat then
     [Evidence.typosquatAlert typosquat_result.suspected_brand typosquat_result.similarity_score]
   else [])
  ++ (match domain_age_result with
      | some r =>
        match r.age_days with
        | some age_days =>
          if age_days < 30 then [Evidence.newDomain age_days]
          else if age_days < 90 then [Evidence.youngDomain age_days]
          else if 365 ≤ age_days then [Evidence.establishedDomain (age_days / 365)]
          else []
        | none => []
      | none => [])
  ++ (match visual_info with
      | some v =>
        if v.analyzed then
          (if optTruthy v.detected_brand then
             [Evidence.visualBrand v.detected_brand v.brand_match_confidence]
           else [])
          ++ (if v.has_urgency_elements then [Evidence.visualUrgency] else [])
          ++ (if v.is_login_page then [Evidence.visualLogin] else [])
          ++ ((v.findings.take 2).filter
                (fun f => !(f == "") && !("Visual".data.isPrefixOf f.data))).map
              Evidence.visualFinding
        else []
      | none => [])
  ++ [Evidence.sslSummary ssl_summary]
  ++ (if optTruthy ct_result.warning then [Evidence.ctWarning (format_ct_summary ct_result)] else [])
  ++ (if domain_info.has_suspicious_subdomain then
        [Evidence.suspiciousSubdomain domain_info.subdomain]
      else [])
  ++ (if domain_info.has_suspicious_tld then [Evidence.suspiciousTld domain_info.suffix] else [])
  ++ (if domain_info.is_ip_address then [Evidence.ipAddress] else [])
  ++ (let password_forms := (forms.filter fun f => f.hasPassword || f.has_password).length
      if 0 < password_forms then [Evidence.passwordForms password_forms] else [])
  ++ (let external_forms := (forms.filter fun f => f.submitsToDifferentDomain).length
      if 0 < external_forms then [Evidence.externalForms external_forms] else [])
  ++ (if 0 < dom_analysis.hidden_iframes then [Evidence.hiddenIframes] else [])
  ++ (if !typosquat_result.is_typosquat && ssl_info.is_valid
        && !visualBrandTruthy visual_info then
        [Evidence.noBrandImpersonation]
      else [])

/-! ## Helper lemmas about the rounding functions -/

theorem floor_le_pyRound (q : ℚ) : ⌊q⌋ ≤ pyRound q := by
  unfold pyRound; split_ifs <;> omega

theorem pyRound_le_floor_add_one (q : ℚ) : pyRound q ≤ ⌊q⌋ + 1 := by
  unfold pyRound; split_ifs <;> omega

theorem pyRound_cast_le (q : ℚ) : (pyRound q : ℚ) ≤ q + 1/2 := by
  have hfl := Int.floor_le q
  unfold pyRound
  split_ifs with h1 h2 h3 <;> push_cast <;> linarith

theorem pyRound_mono {x y : ℚ} (h : x ≤ y) : pyRound x ≤ pyRound y := by
  rcases lt_or_eq_of_le (Int.floor_mono h) with hf | hf
  · calc pyRound x ≤ ⌊x⌋ + 1 := pyRound_le_floor_add_one x
      _ ≤ ⌊y⌋ := by omega
      _ ≤ pyRound y := floor_le_pyRound y
  · unfold pyRound
    rw [← hf]
    split_ifs <;> first | omega | linarith

theorem pyRound_nonneg {q : ℚ} (h : 0 ≤ q) : 0 ≤ pyRound q :=
  le_trans (Int.floor_nonneg.mpr h) (floor_le_pyRound q)

theorem pyRound_intCast (z : ℤ) : pyRound (z : ℚ) = z := by
  unfold pyRound
  rw [Int.floor_intCast]
  rw [if_pos (by norm_num : (z : ℚ) - (z : ℚ) < 1/2)]

theorem pyRound2_mono {x y : ℚ} (h : x ≤ y) : pyRound2 x ≤ pyRound2 y := by
  unfold pyRound2
  have h1 : (pyRound (x * 100) : ℚ) ≤ (pyRound (y * 100) : ℚ) := by
    exact_mod_cast pyRound_mono (by linarith)
  linarith

theorem pyRound2_nonneg {q : ℚ} (h : 0 ≤ q) : 0 ≤ pyRound2 q := by
  unfold pyRound2
  have h1 : (0 : ℚ) ≤ (pyRound (q * 100) : ℚ) := by
    exact_mod_cast pyRound_nonneg (by linarith)
  linarith

theorem le_pyRoundDiv (a b : ℤ) : Int.fdiv a b ≤ pyRoundDiv a b := by
  unfold pyRoundDiv; split_ifs <;> omega

theorem pyRoundDiv_le (a b : ℤ) : pyRoundDiv a b ≤ Int.fdiv a b + 1 := by
  unfold pyRoundDiv; split_ifs <;> omega

/-- The integer guard used in `checkBrand` is exactly the test in the source,
`similarity >= 0.75` where `similarity = 1 - distance / m`. -/
theorem simGuard_iff (d m : ℕ) (hm : 0 < m) :
    (75 * (m : ℤ) ≤ 100 * ((m : ℤ) - (d : ℤ))) ↔ ((0.75 : ℚ) ≤ 1 - (d : ℚ) / (m : ℚ)) := by
  have hm' : (0 : ℚ) < (m : ℚ) := by exact_mod_cast hm
  constructor
  · intro h
    have h' : (75 : ℚ) * m ≤ 100 * ((m : ℚ) - d) := by exact_mod_cast h
    have hdm : (d : ℚ) / m ≤ 1/4 := by rw [div_le_iff hm']; linarith
    norm_num
    linarith
  · intro h
    have h' : (0.75 : ℚ) = 3/4 := by norm_num
    rw [h'] at h
    have hdm : (d : ℚ) / m ≤ 1/4 := by linarith
    rw [div_le_iff hm'] at hdm
    have : (100 : ℚ) * d ≤ 25 * m := by linarith
    have hz : (100 : ℤ) * d ≤ 25 * m := by exact_mod_cast this
    linarith

/-- `pyRoundDiv` over a natural denominator agrees with round-half-even of
the rational fraction; this ties the integer arithmetic in `checkBrand` to
`round(similarity * 100)` in the source. -/
theorem pyRoundDiv_eq_pyRound (a : ℤ) (m : ℕ) (hm : 0 < m) :
    pyRoundDiv a m = pyRound ((a : ℚ) / (m : ℚ)) := by
  have hm' : (0 : ℚ) < (m : ℚ) := by exact_mod_cast hm
  have hmz : (0 : ℤ) < (m : ℤ) := by exact_mod_cast hm
  have hfd : Int.fdiv a m = a / (m : ℤ) := Int.fdiv_eq_ediv a (by positivity)
  have hfl : ⌊(a : ℚ) / (m : ℚ)⌋ = a / (m : ℤ) := Rat.floor_intCast_div_natCast a m
  have hdm : (m : ℤ) * (a / (m : ℤ)) + a % (m : ℤ) = a := Int.ediv_add_emod a m
  have c1 : ((a : ℚ) / (m : ℚ) - ((a / (m : ℤ) : ℤ) : ℚ) < 1/2) ↔
      (2 * (a - (m : ℤ) * (a / (m : ℤ))) < (m : ℤ)) := by
    constructor
    · intro h
      have h2 : (a : ℚ) < (1/2 + ((a / (m : ℤ) : ℤ) : ℚ)) * m :=
        (div_lt_iff₀ hm').mp (by linarith)
      have h3 : 2 * ((a : ℚ) - (m : ℚ) * ((a / (m : ℤ) : ℤ) : ℚ)) < (m : ℚ) := by nlinarith
      exact_mod_cast h3
    · intro h
      have h3 : 2 * ((a : ℚ) - (m : ℚ) * ((a / (m : ℤ) : ℤ) : ℚ)) < (m : ℚ) := by
        exact_mod_cast h
      have h2 : (a : ℚ) / m < 1/2 + ((a / (m : ℤ) : ℤ) : ℚ) :=
        (div_lt_iff₀ hm').mpr (by nlinarith)
      linarith
  have c2 : ((1 : ℚ)/2 < (a : ℚ) / (m : ℚ) - ((a / (m : ℤ) : ℤ) : ℚ)) ↔
      ((m : ℤ) < 2 * (a - (m : ℤ) * (a / (m : ℤ)))) := by
    constructor
    · intro h
      have h2 : (1/2 + ((a / (m : ℤ) : ℤ) : ℚ)) * m < a :=
        (lt_div_iff₀ hm').mp (by linarith)
      have h3 : (m : ℚ) < 2 * ((a : ℚ) - (m : ℚ) * ((a / (m : ℤ) : ℤ) : ℚ)) := by nlinarith
      exact_mod_cast h3
    · intro h
      have h3 : (m : ℚ) < 2 * ((a : ℚ) - (m : ℚ) * ((a / (m : ℤ) : ℤ) : ℚ)) := by
        exact_mod_cast h
      have h2 : (1/2 + ((a / (m : ℤ) : ℤ) : ℚ)) < (a : ℚ) / m :=
        (lt_div_iff₀ hm').mpr (by nlinarith)
      linarith
  simp only [pyRound, pyRoundDiv]
  rw [hfl, hfd]
  by_cases k1 : 2 * (a - (m : ℤ) * (a / (m : ℤ))) < (m : ℤ)
  · rw [if_pos k1, if_pos (c1.mpr k1)]
  · rw [if_neg k1, if_neg (fun hq => k1 (c1.mp hq))]
    by_cases k2 : (m : ℤ) < 2 * (a - (m : ℤ) * (a / (m : ℤ)))
    · rw [if_pos k2, if_pos (c2.mpr k2)]
    · rw [if_neg k2, if_neg (fun hq => k2 (c2.mp hq))]

/-- Bounds for the similarity score computed by the edit-distance branch of
`checkBrand`: whenever the guard `75 * m ≤ 100 * (m - d)` holds (with
`0 < m` and `0 ≤ d`), the rounded score lies in `[75, 100]`. -/
theorem pyRoundDiv_sim_bounds (d m : ℤ) (hm : 0 < m) (hd : 0 ≤ d)
    (hlo : 75 * m ≤ 100 * (m - d)) :
    75 ≤ pyRoundDiv (100 * (m - d)) m ∧ pyRoundDiv (100 * (m - d)) m ≤ 100 := by
  have hfd : Int.fdiv (100 * (m - d)) m = 100 * (m - d) / m := Int.fdiv_eq_ediv _ hm.le
  have hbound : m * (100 * (m - d) / m) + 100 * (m - d) % m = 100 * (m - d) :=
    Int.ediv_add_emod _ m
  have hr0 : 0 ≤ 100 * (m - d) % m := Int.emod_nonneg _ (ne_of_gt hm)
  have h75 : 75 ≤ 100 * (m - d) / m := by
    rw [Int.le_ediv_iff_mul_le hm]; linarith
  have h100 : 100 * (m - d) / m ≤ 100 := by
    by_contra hcon
    push_neg at hcon
    have h101 : 101 ≤ 100 * (m - d) / m := by omega
    have hmul : 101 * m ≤ (100 * (m - d) / m) * m := mul_le_mul_of_nonneg_right h101 hm.le
    nlinarith
  constructor
  · calc (75 : ℤ) ≤ 100 * (m - d) / m := h75
      _ = Int.fdiv (100 * (m - d)) m := hfd.symm
      _ ≤ pyRoundDiv (100 * (m - d)) m := le_pyRoundDiv _ m
  · rcases lt_or_eq_of_le h100 with hlt | heq
    · have hle := pyRoundDiv_le (100 * (m - d)) m
      rw [hfd] at hle
      omega
    · have hb2 := hbound
      rw [heq] at hb2
      have hr_le : 100 * (m - d) % m ≤ 0 := by linarith
      have hr_eq : 100 * (m - d) % m = 0 := le_antisymm hr_le hr0
      have hcond : 2 * (100 * (m - d) - m * Int.fdiv (100 * (m - d)) m) < m := by
        rw [hfd, heq]
        linarith
      unfold pyRoundDiv
      rw [if_pos hcond, hfd]
      exact h100

/-- Any `some` result of `checkBrand` that is flagged as a typosquat names the
brand of that loop iteration, carries a technique, and reports a similarity
score between 75 and 100. -/
theorem checkBrand_invariant (hostname domain_name brand : String)
    (legit : List String) (r : TyposquatResult)
    (hblen : 0 < brand.data.length)
    (h : checkBrand hostname domain_name brand legit = some r)
    (hne : r.is_typosquat = true) :
    r.suspected_brand = some brand ∧ r.technique ≠ none ∧
      75 ≤ r.similarity_score ∧ r.similarity_score ≤ 100 := by
  simp only [checkBrand] at h
  split_ifs at h with h1 h2 h3 h4
  · rw [← Option.some.inj h] at hne
    simp [typosquatZeroResult] at hne
  · rw [← Option.some.inj h]
    have hm : (0 : ℤ) < (max domain_name.data.length brand.data.length : ℕ) := by
      have : 0 < max domain_name.data.length brand.data.length :=
        lt_of_lt_of_le hblen (le_max_right _ _)
      exact_mod_cast this
    have hd : (0 : ℤ) ≤ (calculate_levenshtein domain_name.data brand.data : ℤ) :=
      Int.natCast_nonneg _
    have hb := pyRoundDiv_sim_bounds (calculate_levenshtein domain_name.data brand.data)
      ((max domain_name.data.length brand.data.length : ℕ) : ℤ) hm hd h2.1
    exact ⟨rfl, by simp, hb.1, hb.2⟩
  · rw [← Option.some.inj h]
    refine ⟨rfl, by simp, by norm_num, by norm_num⟩
  · rw [← Option.some.inj h]
    refine ⟨rfl, by simp, by norm_num, by norm_num⟩

/-- Loop version of the typosquat invariant, by induction over the brand
table. -/
theorem detectLoop_invariant (hostname domain_name : String)
    (l : List (String × List String))
    (hlen : ∀ p ∈ l, 0 < p.1.data.length)
    (h : (detectLoop hostname domain_name l).is_typosquat = true) :
    (∃ b, (detectLoop hostname domain_name l).suspected_brand = some b ∧
        b ∈ l.map Prod.fst)
    ∧ (detectLoop hostname domain_name l).technique ≠ none
    ∧ 75 ≤ (detectLoop hostname domain_name l).similarity_score
    ∧ (detectLoop hostname domain_name l).similarity_score ≤ 100 := by
  induction l with
  | nil => simp [detectLoop, typosquatZeroResult] at h
  | cons p rest ih =>
    obtain ⟨brand, legit⟩ := p
    rcases hcb : checkBrand hostname domain_name brand legit with _ | r
    · simp only [detectLoop, hcb] at h ⊢
      have hrest := ih (fun q hq => hlen q (List.mem_cons_of_mem _ hq)) h
      refine ⟨?_, hrest.2.1, hrest.2.2.1, hrest.2.2.2⟩
      obtain ⟨b, hb1, hb2⟩ := hrest.1
      exact ⟨b, hb1, by simp only [List.map_cons]; exact List.mem_cons_of_mem _ hb2⟩
    · simp only [detectLoop, hcb] at h ⊢
      have hinv := checkBrand_invariant hostname domain_name brand legit r
        (hlen (brand, legit) (List.mem_cons_self _ _)) hcb h
      exact ⟨⟨brand, hinv.1, by simp⟩, hinv.2.1, hinv.2.2.1, hinv.2.2.2⟩

/-! ## Verdict and score lemmas -/

/-- C2: determine_verdict returns phish exactly when score is at least 0.55,
suspicious exactly when 0.25 ≤ score < 0.55, and safe exactly when
score < 0.25, with the thresholds evaluated high-to-low as half-open
intervals. -/
theorem determine_verdict_thresholds (score : ℚ) :
    (determine_verdict score = "phish" ↔ 0.55 ≤ score) ∧
    (determine_verdict score = "suspicious" ↔ 0.25 ≤ score ∧ score < 0.55) ∧
    (determine_verdict score = "safe" ↔ score < 0.25) := by
  unfold determine_verdict
  split_ifs with h1 h2
  · exact ⟨⟨fun _ => h1, fun _ => rfl⟩,
      ⟨fun hh => absurd hh (by decide), fun hs => (by linarith [hs.2] : False).elim⟩,
      ⟨fun hh => absurd hh (by decide), fun hs => (by linarith : False).elim⟩⟩
  · push_neg at h1
    exact ⟨⟨fun hh => absurd hh (by decide), fun hs => (by linarith : False).elim⟩,
      ⟨fun _ => ⟨h2, h1⟩, fun _ => rfl⟩,
      ⟨fun hh => absurd hh (by decide), fun hs => (by linarith : False).elim⟩⟩
  · push_neg at h1 h2
    exact ⟨⟨fun hh => absurd hh (by decide), fun hs => (by linarith : False).elim⟩,
      ⟨fun hh => absurd hh (by decide), fun hs => (by linarith [hs.1] : False).elim⟩,
      ⟨fun _ => h2, fun _ => rfl⟩⟩

/-- Witness for the verdict threshold theorem at the three tiers. -/
theorem determine_verdict_thresholds_witness :
    determine_verdict 0.6 = "phish" ∧ determine_verdict 0.3 = "suspicious" ∧
      determine_verdict 0.1 = "safe" :=
  ⟨(determine_verdict_thresholds 0.6).1.mpr (by norm_num),
   (determine_verdict_thresholds 0.3).2.1.mpr (by norm_num),
   (determine_verdict_thresholds 0.1).2.2.mpr (by norm_num)⟩

theorem verdictTier_mono {s t : ℚ} (h : s ≤ t) :
    verdictTier (determine_verdict s) ≤ verdictTier (determine_verdict t) := by
  have t1 : verdictTier "phish" = 2 := by decide
  have t2 : verdictTier "suspicious" = 1 := by decide
  have t3 : verdictTier "safe" = 0 := by decide
  unfold determine_verdict
  split_ifs <;> simp only [t1, t2, t3] <;> first | omega | linarith

theorem sslFactor_nonneg (ssl : SslInfo) : 0 ≤ sslFactor ssl := by
  simp only [sslFactor]
  split_ifs <;> norm_num

theorem domainFactor_nonneg (dom : DomainInfo) : 0 ≤ domainFactor dom := by
  simp only [domainFactor]
  split_ifs <;> norm_num

theorem formFactor_nonneg (forms : List FormInfo) : 0 ≤ formFactor forms := by
  simp only [formFactor]
  split_ifs <;> norm_num

theorem domBehaviorFactor_nonneg (pats : List String) (da : DomAnalysis) :
    0 ≤ domBehaviorFactor pats da := by
  simp only [domBehaviorFactor]
  have h0 : (0 : ℚ) ≤ min 0.06
      ((((pats.filter fun p => containsSub "urgency".data (p.data.map Char.toLower)).length : ℕ) : ℚ) * 0.02) :=
    le_min (by norm_num) (by positivity)
  split_ifs <;> linarith

/-- C1: for every combination of collector payloads and DOM inputs, and for
every nonnegative typosquat/CT/visual/domain-age risk contribution (the
collector risk functions only produce nonnegative values), the risk score
returned by calculate_risk_score lies between 0.0 and 0.99 inclusive. -/
theorem calculate_risk_score_bounds
    (ssl : SslInfo) (dom : DomainInfo) (forms : List FormInfo)
    (pats : List String) (da : DomAnalysis) (vis : Option VisualResult)
    (typosquat_risk ct_risk visual_risk domain_age_risk : ℚ)
    (ht : 0 ≤ typosquat_risk) (hct : 0 ≤ ct_risk)
    (hv : 0 ≤ visual_risk) (hg : 0 ≤ domain_age_risk) :
    0 ≤ calculate_risk_score ssl dom forms pats da vis
        typosquat_risk ct_risk visual_risk domain_age_risk ∧
    calculate_risk_score ssl dom forms pats da vis
        typosquat_risk ct_risk visual_risk domain_age_risk ≤ 0.99 := by
  unfold calculate_risk_score
  constructor
  · apply le_min
    · apply pyRound2_nonneg
      have h1 := sslFactor_nonneg ssl
      have h2 := domainFactor_nonneg dom
      have h3 := formFactor_nonneg forms
      have h4 := domBehaviorFactor_nonneg pats da
      linarith
    · norm_num
  · exact min_le_right _ _

/-- Witness for the score-bounds theorem on the empty request. -/
theorem calculate_risk_score_bounds_witness :
    0 ≤ calculate_risk_score {} {} [] [] {} none 0 0 0 0 ∧
    calculate_risk_score {} {} [] [] {} none 0 0 0 0 ≤ 0.99 :=
  calculate_risk_score_bounds {} {} [] [] {} none 0 0 0 0
    le_rfl le_rfl le_rfl le_rfl

/-- C5: raising any category contribution (each payload-derived factor and
each collector risk input) while the others do not decrease never lowers the
verdict tier under the ordering safe ≤ suspicious ≤ phish. -/
theorem verdict_monotone
    (ssl1 ssl2 : SslInfo) (dom1 dom2 : DomainInfo)
    (forms1 forms2 : List FormInfo) (pats1 pats2 : List String)
    (da1 da2 : DomAnalysis) (vis1 vis2 : Option VisualResult)
    (t1 t2 ct1 ct2 v1 v2 g1 g2 : ℚ)
    (hssl : sslFactor ssl1 ≤ sslFactor ssl2)
    (hdom : domainFactor dom1 ≤ domainFactor dom2)
    (hform : formFactor forms1 ≤ formFactor forms2)
    (hdb : domBehaviorFactor pats1 da1 ≤ domBehaviorFactor pats2 da2)
    (ht : t1 ≤ t2) (hct : ct1 ≤ ct2) (hv : v1 ≤ v2) (hg : g1 ≤ g2) :
    verdictTier (determine_verdict
      (calculate_risk_score ssl1 dom1 forms1 pats1 da1 vis1 t1 ct1 v1 g1)) ≤
    verdictTier (determine_verdict
      (calculate_risk_score ssl2 dom2 forms2 pats2 da2 vis2 t2 ct2 v2 g2)) := by
  apply verdictTier_mono
  unfold calculate_risk_score
  apply min_le_min _ le_rfl
  apply pyRound2_mono
  linarith

/-- Witness for verdict monotonicity: raising only the typosquat
contribution from 0 to 0.35. -/
theorem verdict_monotone_witness :
    verdictTier (determine_verdict (calculate_risk_score {} {} [] [] {} none 0 0 0 0)) ≤
    verdictTier (determine_verdict (calculate_risk_score {} {} [] [] {} none 0.35 0 0 0)) :=
  verdict_monotone {} {} {} {} [] [] [] [] {} {} none none 0 0.35 0 0 0 0 0 0
    le_rfl le_rfl le_rfl le_rfl (by norm_num) le_rfl le_rfl le_rfl

/-- C4 counterexample: the TLS payload of the claim (expired, self-signed,
security score 10) with has_ssl set and is_valid unset contributes 0.26, not
at most 0.20 — the invalid-but-present penalty of 0.06 still applies. -/
theorem sslFactor_c4_counterexample :
    sslFactor { has_ssl := true, is_valid := false, is_self_signed := true,
                is_expired := true, security_score := some 10 } = 0.26 ∧
    ¬(sslFactor { has_ssl := true, is_valid := false, is_self_signed := true,
                  is_expired := true, security_score := some 10 } ≤ 0.20) := by
  constructor
  · norm_num [sslFactor]
  · norm_num [sslFactor]

/-- C4 amended: a TLS payload with is_expired, is_self_signed and
security_score = 10 contributes exactly 0.20 when additionally has_ssl is
true and is_valid is true; in general its contribution is at most 0.26 (the
block enforces no 0.20 cap, and the invalid-cert or missing-ssl penalty adds
a further 0.06). -/
theorem sslFactor_expired_selfsigned (ssl : SslInfo)
    (hexp : ssl.is_expired = true) (hself : ssl.is_self_signed = true)
    (hsec : ssl.security_score = some 10) :
    (ssl.has_ssl = true → ssl.is_valid = true → sslFactor ssl = 0.20) ∧
    sslFactor ssl ≤ 0.26 := by
  constructor
  · intro hh hvv
    simp only [sslFactor, hexp, hself, hsec, hh, hvv]
    norm_num
  · rcases hssl : ssl.has_ssl with _ | _ <;> rcases hvalid : ssl.is_valid with _ | _ <;>
      simp only [sslFactor, hexp, hself, hsec, hssl, hvalid] <;> norm_num

/-- Witness for the amended TLS-contribution theorem at the fully-populated
valid-certificate payload. -/
theorem sslFactor_expired_selfsigned_witness :
    sslFactor { has_ssl := true, is_valid := true, is_self_signed := true,
                is_expired := true, security_score := some 10 } = 0.20 ∧
    sslFactor { has_ssl := true, is_valid := true, is_self_signed := true,
                is_expired := true, security_score := some 10 } ≤ 0.26 := by
  have h := sslFactor_expired_selfsigned
    { has_ssl := true, is_valid := true, is_self_signed := true,
      is_expired := true, security_score := some 10 } rfl rfl rfl
  exact ⟨h.1 rfl rfl, h.2⟩

/-- C10: whenever detect_typosquatting flags a hostname as a typosquat, the
result names a suspected brand from the corpus, carries a technique, and its
similarity score is an integer between 75 and 100 inclusive. -/
theorem detect_typosquatting_invariant (hostname : String)
    (h : (detect_typosquatting hostname).is_typosquat = true) :
    (∃ b, (detect_typosquatting hostname).suspected_brand = some b ∧
        b ∈ POPULAR_BRANDS.map Prod.fst)
    ∧ (detect_typosquatting hostname).technique ≠ none
    ∧ 75 ≤ (detect_typosquatting hostname).similarity_score
    ∧ (detect_typosquatting hostname).similarity_score ≤ 100 := by
  unfold detect_typosquatting at h ⊢
  split_ifs at h ⊢ with h0
  · simp [typosquatZeroResult] at h
  · exact detectLoop_invariant hostname (normalize_domain hostname) POPULAR_BRANDS
      (by decide) h

set_option maxRecDepth 100000 in
/-- Witness for the typosquat invariant at the flagged hostname paypa1.com. -/
theorem detect_typosquatting_invariant_witness :
    (detect_typosquatting "paypa1.com").is_typosquat = true ∧
    ((∃ b, (detect_typosquatting "paypa1.com").suspected_brand = some b ∧
        b ∈ POPULAR_BRANDS.map Prod.fst)
    ∧ (detect_typosquatting "paypa1.com").technique ≠ none
    ∧ 75 ≤ (detect_typosquatting "paypa1.com").similarity_score
    ∧ (detect_typosquatting "paypa1.com").similarity_score ≤ 100) :=
  ⟨by decide, detect_typosquatting_invariant "paypa1.com" (by decide)⟩

set_option maxRecDepth 100000 in
/-- C3 counterexample: Detect("paypa1.com") does not report technique
letter_substitution with similarity score 95. -/
theorem detect_paypa1_counterexample :
    ¬((detect_typosquatting "paypa1.com").technique = some "letter_substitution" ∧
      (detect_typosquatting "paypa1.com").similarity_score = 95) := by decide

set_option maxRecDepth 100000 in
/-- C3 amended: Detect("paypa1.com") flags a typosquat of paypal, but via the
edit-distance branch, which runs before the substitution check: technique
character_swap and similarity score 83 (round of 100·(5/6)). -/
theorem detect_paypa1_result :
    detect_typosquatting "paypa1.com" =
      { is_typosquat := true, suspected_brand := some "paypal",
        similarity_score := 83, technique := some "character_swap",
        details := [TyposquatNote.similar "paypa1" 83 "paypal"] } := by decide

/-- Brands whose checks all fail are skipped by the detection loop. -/
theorem detectLoop_skip (hostname domain_name : String)
    (pre l : List (String × List String))
    (hpre : ∀ p ∈ pre, checkBrand hostname domain_name p.1 p.2 = none) :
    detectLoop hostname domain_name (pre ++ l) = detectLoop hostname domain_name l := by
  induction pre with
  | nil => rfl
  | cons q rest ih =>
    obtain ⟨b, lg⟩ := q
    have hq : checkBrand hostname domain_name b lg = none :=
      hpre (b, lg) (List.mem_cons_self _ _)
    simp only [List.cons_append, detectLoop, hq]
    exact ih fun p hp => hpre p (List.mem_cons_of_mem _ hp)

/-- C6 amended: if the hostname suffix-matches a legitimate domain of some
brand in the corpus, and no brand placed earlier in declaration order
triggers any of its checks first, Detect stops at that brand and returns
is_typosquat = false with a legitimacy note for it. -/
theorem detect_legitimate_short_circuit (hostname brand : String)
    (pre rest : List (String × List String)) (legit : List String)
    (hb : POPULAR_BRANDS = pre ++ (brand, legit) :: rest)
    (hm : (legit.any fun d => d.data.isSuffixOf hostname.data || hostname == d) = true)
    (hpre : ∀ p ∈ pre, checkBrand hostname (normalize_domain hostname) p.1 p.2 = none)
    (hne : hostname ≠ "") :
    detect_typosquatting hostname =
      { typosquatZeroResult with details := [TyposquatNote.legitimate brand] } := by
  unfold detect_typosquatting
  rw [if_neg hne, hb, detectLoop_skip hostname (normalize_domain hostname) pre _ hpre]
  simp only [detectLoop, checkBrand, hm, if_true]

/-- Witness for the short-circuit theorem: accounts.google.com is a subdomain
of google.com, the first brand checked, so no typosquat is reported. -/
theorem detect_legitimate_short_circuit_witness :
    detect_typosquatting "accounts.google.com" =
      { typosquatZeroResult with details := [TyposquatNote.legitimate "google"] } :=
  detect_legitimate_short_circuit "accounts.google.com" "google" [] POPULAR_BRANDS.tail
    ["google.com", "gmail.com", "youtube.com"] rfl (by decide)
    (fun p hp => absurd hp (List.not_mem_nil p)) (by decide)

set_option maxRecDepth 100000 in
/-- C6 counterexample: usps.com is listed among the legitimate domains of
the corpus (brand usps), yet Detect flags it as a typosquat of ups, because the
ups entry comes earlier in declaration order and its edit-distance check
fires before the usps entry is reached. -/
theorem detect_usps_counterexample :
    (POPULAR_BRANDS.any fun p => p.2.any fun d => d == "usps.com") = true ∧
    (detect_typosquatting "usps.com").is_typosquat = true ∧
    (detect_typosquatting "usps.com").suspected_brand = some "ups" := by decide

/-- C9 counterexample: a truthy non-string hostname (the integer 1) makes
the detector raise AttributeError instead of returning the zero result. -/
theorem detect_dyn_counterexample :
    detect_typosquatting_dyn (PyVal.pint 1) = Except.error "AttributeError" := rfl

/-- C9 amended: every falsy hostname value (empty string, None, False, 0,
the empty list) makes the detector return the zero result without raising;
truthy non-string values instead raise AttributeError in normalize_domain. -/
theorem detect_dyn_falsy (hostname : PyVal) (h : pyTruthy hostname = false) :
    detect_typosquatting_dyn hostname = Except.ok typosquatZeroResult := by
  unfold detect_typosquatting_dyn
  rw [h]
  rfl

/-- Witness for the falsy-hostname theorem at None and the empty string. -/
theorem detect_dyn_falsy_witness :
    detect_typosquatting_dyn PyVal.pnone = Except.ok typosquatZeroResult ∧
    detect_typosquatting_dyn (PyVal.pstr "") = Except.ok typosquatZeroResult :=
  ⟨detect_dyn_falsy PyVal.pnone rfl, detect_dyn_falsy (PyVal.pstr "") (by decide)⟩

/-- C7: at a visual result with a confident brand match, a login page and
urgency elements, get_visual_risk_score returns min(0.28, 0.25) = 0.25, and
calculate_risk_score adds that value to the aggregate with no further cap:
0.25 — not 0.20 — reaches the final score (here all other categories are
neutral, so the final score is exactly 0.25). -/
theorem visual_risk_reaches_aggregate_uncapped :
    (get_visual_risk_score
      { analyzed := true, detected_brand := some "paypal",
        brand_match_confidence := 80, is_login_page := true,
        has_urgency_elements := true, findings := [] }).1 = 0.25 ∧
    calculate_risk_score { has_ssl := true, is_valid := true, security_score := some 80 }
      {} [] [] {} none 0 0
      (get_visual_risk_score
        { analyzed := true, detected_brand := some "paypal",
          brand_match_confidence := 80, is_login_page := true,
          has_urgency_elements := true, findings := [] }).1 0 = 0.25 := by
  have hc : (optTruthy (some "paypal") && decide ((70 : ℤ) < 80)) = true := by decide
  have h1 : (get_visual_risk_score
      { analyzed := true, detected_brand := some "paypal",
        brand_match_confidence := 80, is_login_page := true,
        has_urgency_elements := true, findings := [] }).1 = 0.25 := by
    simp only [get_visual_risk_score, hc]
    norm_num [min_def]
  refine ⟨h1, ?_⟩
  rw [h1]
  have hssl : sslFactor { has_ssl := true, is_valid := true, security_score := some 80 } = 0 := by
    norm_num [sslFactor]
  have hdom : domainFactor {} = 0 := by norm_num [domainFactor]
  have hform : formFactor [] = 0 := by norm_num [formFactor]
  have hdb : domBehaviorFactor [] {} = 0 := by norm_num [domBehaviorFactor]
  unfold calculate_risk_score
  rw [hssl, hdom, hform, hdb]
  have h25 : pyRound2 (0 + 0 + 0.25 + 0 + 0 + 0 + 0 + 0 : ℚ) = 0.25 := by
    unfold pyRound2
    rw [show ((0 + 0 + 0.25 + 0 + 0 + 0 + 0 + 0 : ℚ) * 100) = ((25 : ℤ) : ℚ) by norm_num,
      pyRound_intCast]
    norm_num
  rw [h25]
  norm_num [min_def]

/-- C8 amended: the closing positive remark appears in the evidence list
exactly when no typosquat was found, the certificate is valid, and no visual
brand match occurred; the other findings (new-domain alert, CT, domain, form
and DOM warnings) do not suppress it. -/
theorem noBrand_remark_iff (ssl : SslInfo) (ssum : String) (dom : DomainInfo)
    (forms : List FormInfo) (pats : List String) (da : DomAnalysis)
    (ty : TyposquatResult) (ct : CtResult) (vis : Option VisualResult)
    (age : Option DomainAgeResult) :
    Evidence.noBrandImpersonation ∈
        build_evidence_list ssl ssum dom forms pats da ty ct vis age ↔
      (ty.is_typosquat = false ∧ ssl.is_valid = true ∧ visualBrandTruthy vis = false) := by
  have h1 : Evidence.noBrandImpersonation ∉
      (if ty.is_typosquat then
        [Evidence.typosquatAlert ty.suspected_brand ty.similarity_score]
       else []) := by
    split <;> simp
  have h2 : Evidence.noBrandImpersonation ∉
      (match age with
       | some r =>
         match r.age_days with
         | some age_days =>
           if age_days < 30 then [Evidence.newDomain age_days]
           else if age_days < 90 then [Evidence.youngDomain age_days]
           else if 365 ≤ age_days then [Evidence.establishedDomain (age_days / 365)]
           else []
         | none => []
       | none => []) := by
    rcases age with _ | r
    · simp
    · rcases hd : r.age_days with _ | d
      · simp [hd]
      · simp only [hd]
        split_ifs <;> simp
  have h3 : Evidence.noBrandImpersonation ∉
      (match vis with
       | some v =>
         if v.analyzed then
           (if optTruthy v.detected_brand then
              [Evidence.visualBrand v.detected_brand v.brand_match_confidence]
            else [])
           ++ (if v.has_urgency_elements then [Evidence.visualUrgency] else [])
           ++ (if v.is_login_page then [Evidence.visualLogin] else [])
           ++ ((v.findings.take 2).filter
                 (fun f => !(f == "") && !("Visual".data.isPrefixOf f.data))).map
               Evidence.visualFinding
         else []
       | none => []) := by
    rcases vis with _ | v
    · simp
    · by_cases hv : v.analyzed = true
      · simp only [hv, if_true]
        split_ifs <;> simp
      · simp [hv]
  have h4 : Evidence.noBrandImpersonation ∉ [Evidence.sslSummary ssum] := by simp
  have h5 : Evidence.noBrandImpersonation ∉
      (if optTruthy ct.warning then [Evidence.ctWarning (format_ct_summary ct)] else []) := by
    split <;> simp
  have h6 : Evidence.noBrandImpersonation ∉
      (if dom.has_suspicious_subdomain then [Evidence.suspiciousSubdomain dom.subdomain]
       else []) := by
    split <;> simp
  have h7 : Evidence.noBrandImpersonation ∉
      (if dom.has_suspicious_tld then [Evidence.suspiciousTld dom.suffix] else []) := by
    split <;> simp
  have h8 : Evidence.noBrandImpersonation ∉
      (if dom.is_ip_address then [Evidence.ipAddress] else []) := by
    split <;> simp
  have h9 : Evidence.noBrandImpersonation ∉
      (if 0 < (forms.filter fun f => f.hasPassword || f.has_password).length then
        [Evidence.passwordForms (forms.filter fun f => f.hasPassword || f.has_password).length]
       else []) := by
    split <;> simp
  have h10 : Evidence.noBrandImpersonation ∉
      (if 0 < (forms.filter fun f => f.submitsToDifferentDomain).length then
        [Evidence.externalForms (forms.filter fun f => f.submitsToDifferentDomain).length]
       else []) := by
    split <;> simp
  have h11 : Evidence.noBrandImpersonation ∉
      (if 0 < da.hidden_iframes then [Evidence.hiddenIframes] else []) := by
    split <;> simp
  simp only [build_evidence_list, List.mem_append, h1, h2, h3, h4, h5, h6, h7, h8, h9,
    h10, h11, false_or, or_false]
  split_ifs with hc
  · rw [Bool.and_eq_true, Bool.and_eq_true, Bool.not_eq_true', Bool.not_eq_true'] at hc
    exact iff_of_true (List.mem_singleton.mpr rfl) ⟨hc.1.1, hc.1.2, hc.2⟩
  · refine iff_of_false (List.not_mem_nil _) fun hr => hc ?_
    rw [hr.1, hr.2.1, hr.2.2]
    rfl

/-- Witness for the closing-remark characterisation: with a valid certificate
and no typosquat or visual data, the remark is emitted. -/
theorem noBrand_remark_iff_witness :
    Evidence.noBrandImpersonation ∈
      build_evidence_list { is_valid := true } "summary" {} [] [] {}
        typosquatZeroResult {} none none :=
  (noBrand_remark_iff { is_valid := true } "summary" {} [] [] {}
    typosquatZeroResult {} none none).mpr ⟨rfl, rfl, rfl⟩

/-- C8 counterexample: on a five-day-old domain with a valid certificate and
no typosquat, the evidence list contains both the new-domain alert (a
higher-priority negative finding) and the closing positive remark. -/
theorem noBrand_remark_counterexample :
    Evidence.noBrandImpersonation ∈
      build_evidence_list { is_valid := true } "summary" {} [] [] {}
        typosquatZeroResult {} none (some { checked := true, age_days := some 5 }) ∧
    Evidence.newDomain 5 ∈
      build_evidence_list { is_valid := true } "summary" {} [] [] {}
        typosquatZeroResult {} none (some { checked := true, age_days := some 5 }) := by
  constructor <;> decide
